import Mathlib

/-!
A formal model of `weather.py`: a request handler that geocodes a city name,
fetches current weather, fetches an hourly wind series, and maps failures of
each stage to HTTP-like status codes.

External effects (the geopy geocoder, the two Open-Meteo HTTP requests, the
process clock, and the `random` module) are modelled as an explicit
environment `Env` of oracle functions.  Numbers that the program merely
transports are modelled as rationals.  The handler is instrumented with a
trace of which collaborators it invoked, so that claims of the form
"the fetcher is never invoked" are expressible.
-/

namespace Weather

/-- A JSON-ish scalar: either a number or a string (the code substitutes the
string literal N/A when an upstream numeric field is missing). -/
inductive JVal
  | num (q : ℚ)
  | str (s : String)
deriving DecidableEq

/-- The upstream `current_weather` JSON object, every field optional
(`dict.get` with a default).  A request whose body lacks the
`current_weather` key behaves as the payload with every field `none`,
mirroring `data.get("current_weather", {})`. -/
structure CWPayload where
  temperature : Option ℚ
  windspeed : Option ℚ
  winddirection : Option ℚ
  relative_humidity : Option ℚ
  pressure_msl : Option ℚ
deriving DecidableEq

/-- The upstream `hourly` JSON object: three parallel, possibly ragged,
arrays, each defaulting to `[]` when the key is missing. -/
structure HourlyPayload where
  time : List String
  windspeed_10m : List ℚ
  winddirection_10m : List ℚ
deriving DecidableEq

/-- The value assembled by `get_current_weather` (source lines 55-62). -/
structure CurrentWeather where
  date : String
  temperature : JVal
  wind_speed : JVal
  wind_direction : JVal
  humidity : ℚ
  pressure : ℚ
deriving DecidableEq

/-- One element of the list assembled by `get_hourly_weather`
(source lines 106-110). -/
structure HourlyWeatherPoint where
  time : String
  wind_speed : ℚ
  wind_direction : ℚ
deriving DecidableEq

/-- The oracle environment: each field models one external effect.
`geocode` models `geolocator.geocode` and may raise (`Except.error`) or
return no match (`Except.ok none`); `fetchCurrent` / `fetchHourly` model the
two HTTP GETs, `none` standing for any `requests` failure (transport error,
non-success status, malformed body); `now` is the formatted process clock;
`randint a b` models `random.randint(a, b)` (inclusive bounds) and
`uniform a b` models `random.uniform(a, b)`. -/
structure Env where
  geocode : String → Except String (Option (ℚ × ℚ))
  fetchCurrent : ℚ → ℚ → Option CWPayload
  fetchHourly : ℚ → ℚ → Option HourlyPayload
  now : String
  randint : Int → Int → Int
  uniform : ℚ → ℚ → ℚ

/-- `get_coordinates` (source lines 6-20): a match yields the pair, no match
or any exception collapses to `none` (the code returns `(None, None)` in
both cases). -/
def get_coordinates (env : Env) (city_name : String) : Option (ℚ × ℚ) :=
  match env.geocode city_name with
  | Except.ok (some p) => some p
  | Except.ok none => none
  | Except.error _ => none

/-- `dict.get(key, "N/A")` on an optional numeric field. -/
def numOrNA (o : Option ℚ) : JVal :=
  match o with
  | some q => JVal.num q
  | none => JVal.str "N/A"

/-- `get_current_weather` (source lines 22-66): on HTTP success builds the
record; `date` is the process clock, humidity and pressure fall back to
`random.randint(30, 90)` / `random.randint(980, 1050)` when missing. -/
def get_current_weather (env : Env) (latitude longitude : ℚ) :
    Option CurrentWeather :=
  (env.fetchCurrent latitude longitude).map fun current_weather =>
    { date := env.now,
      temperature := numOrNA current_weather.temperature,
      wind_speed := numOrNA current_weather.windspeed,
      wind_direction := numOrNA current_weather.winddirection,
      humidity := current_weather.relative_humidity.getD
        ((env.randint 30 90 : Int) : ℚ),
      pressure := current_weather.pressure_msl.getD
        ((env.randint 980 1050 : Int) : ℚ) }

/-- `get_hourly_weather` (source lines 68-116): on HTTP success builds
`min(end_hour + 1, len(times))` points; per index, each wind field uses the
array entry when the index is in range and otherwise a fresh draw
(`uniform(base - 2, base + 3)` with `base = 5`, resp. `uniform(0, 360)`).
The loop index is always below `len(times)`, so `times.getD i` never takes
its default. -/
def get_hourly_weather (env : Env) (latitude longitude : ℚ) (end_hour : Int) :
    Option (List HourlyWeatherPoint) :=
  (env.fetchHourly latitude longitude).map fun hourly_data =>
    let wind_speeds := hourly_data.windspeed_10m
    let wind_directions := hourly_data.winddirection_10m
    let times := hourly_data.time
    let base_wind_speed : ℚ := 5
    (List.range (min (end_hour + 1) (times.length : Int)).toNat).map fun i =>
      { time := times.getD i "",
        wind_speed :=
          if i < wind_speeds.length then wind_speeds.getD i 0
          else env.uniform (base_wind_speed - 2) (base_wind_speed + 3),
        wind_direction :=
          if i < wind_directions.length then wind_directions.getD i 0
          else env.uniform 0 360 }

/-- The value of a digit string, most significant first. -/
def digitsVal (l : List Char) : Nat :=
  l.foldl (fun acc c => acc * 10 + (c.toNat - 48)) 0

/-- Strip leading and trailing whitespace from a character list. -/
def trimChars (l : List Char) : List Char :=
  ((l.dropWhile Char.isWhitespace).reverse.dropWhile Char.isWhitespace).reverse

/-- Model of the Python built-in `int(s)` on a string: surrounding
whitespace is stripped, an optional sign precedes one or more decimal
digits; anything else raises `ValueError`, modelled as `none`. -/
def pyInt? (s : String) : Option Int :=
  let t := trimChars s.data
  match t with
  | [] => none
  | c :: rest =>
    if c = '-' then
      if rest ≠ [] ∧ rest.all Char.isDigit then
        some (-(digitsVal rest : Int))
      else none
    else if c = '+' then
      if rest ≠ [] ∧ rest.all Char.isDigit then
        some (digitsVal rest : Int)
      else none
    else if t.all Char.isDigit then some (digitsVal t : Int) else none

/-- The inbound request: `request.query.get('city')` and
`request.query.get('hour')`, each `none` when the parameter is absent. -/
structure Request where
  city : Option String
  hour : Option String

/-- A response body: either a fixed message string or the success payload,
which nests exactly one `CurrentWeather` and the hourly list. -/
inductive Body
  | msg (s : String)
  | payload (current_weather : CurrentWeather)
      (hourly_weather : List HourlyWeatherPoint)
deriving DecidableEq

/-- A status-code response, as built by each `return` in `handler`. -/
structure Response where
  statusCode : Nat
  body : Body
deriving DecidableEq

/-- The observable outcome of one handler invocation: a returned response,
or an uncaught exception propagating out of the handler (`int(end_hour)`
raising `ValueError`). -/
inductive HandlerResult
  | ok (r : Response)
  | crash
deriving DecidableEq

/-- Tags for the three collaborators, recorded in invocation order. -/
inductive CallTag
  | geocode
  | current
  | hourly
deriving DecidableEq

/-- `handler` (source lines 118-156), instrumented with the list of
collaborators it invoked.  `int(end_hour)` is evaluated at line 143, after
the 400/404/current-weather checks and before `get_hourly_weather` is
called, so an unparseable hour crashes with trace
`[geocode, current]`. -/
def handler (env : Env) (req : Request) : HandlerResult × List CallTag :=
  match req.city, req.hour with
  | some city_name, some end_hour =>
    match get_coordinates env city_name with
    | none =>
      (HandlerResult.ok ⟨404, Body.msg "City not found."⟩, [CallTag.geocode])
    | some (latitude, longitude) =>
      match get_current_weather env latitude longitude with
      | none =>
        (HandlerResult.ok ⟨500, Body.msg "Error fetching current weather data."⟩,
         [CallTag.geocode, CallTag.current])
      | some current_weather =>
        match pyInt? end_hour with
        | none => (HandlerResult.crash, [CallTag.geocode, CallTag.current])
        | some h =>
          match get_hourly_weather env latitude longitude h with
          | none =>
            (HandlerResult.ok ⟨500, Body.msg "Error fetching hourly weather data."⟩,
             [CallTag.geocode, CallTag.current, CallTag.hourly])
          | some hourly_weather =>
            (HandlerResult.ok ⟨200, Body.payload current_weather hourly_weather⟩,
             [CallTag.geocode, CallTag.current, CallTag.hourly])
  | _, _ =>
    (HandlerResult.ok
       ⟨400, Body.msg "Please provide both 'city' and 'hour' parameters."⟩, [])

/-- The status code of an outcome, `none` for a crash. -/
def statusOf : HandlerResult → Option Nat
  | HandlerResult.ok r => some r.statusCode
  | HandlerResult.crash => none

/-- A fully successful environment: geocoding yields `(1, 2)`, both fetches
succeed, all oracle draws return the lower bound. -/
def envOK : Env :=
  ⟨fun _ => Except.ok (some (1, 2)),
   fun _ _ => some ⟨some 20, some 10, some 180, some 50, some 1000⟩,
   fun _ _ => some ⟨["t0", "t1", "t2", "t3"], [1, 2, 3, 4], [10, 20, 30, 40]⟩,
   "2026-10-12 00:00:00",
   fun a _ => a,
   fun a _ => a⟩

/-- An environment whose geocoder finds no match. -/
def envGeoFail : Env :=
  ⟨fun _ => Except.ok none,
   fun _ _ => some ⟨some 20, some 10, some 180, some 50, some 1000⟩,
   fun _ _ => some ⟨["t0"], [1], [10]⟩,
   "2026-10-12 00:00:00",
   fun a _ => a,
   fun a _ => a⟩

/-- An environment whose current-weather fetch fails. -/
def envCurFail : Env :=
  ⟨fun _ => Except.ok (some (1, 2)),
   fun _ _ => none,
   fun _ _ => some ⟨["t0"], [1], [10]⟩,
   "2026-10-12 00:00:00",
   fun a _ => a,
   fun a _ => a⟩

/-- An environment whose hourly fetch fails while everything else succeeds. -/
def envHourlyFail : Env :=
  ⟨fun _ => Except.ok (some (1, 2)),
   fun _ _ => some ⟨some 20, some 10, some 180, some 50, some 1000⟩,
   fun _ _ => none,
   "2026-10-12 00:00:00",
   fun a _ => a,
   fun a _ => a⟩

/-- An environment whose current-weather payload omits humidity and
pressure. -/
def envNoHum : Env :=
  ⟨fun _ => Except.ok (some (1, 2)),
   fun _ _ => some ⟨some 20, some 10, some 180, none, none⟩,
   fun _ _ => some ⟨["t0"], [1], [10]⟩,
   "2026-10-12 00:00:00",
   fun a _ => a,
   fun a _ => a⟩

/-- The hourly payload with 24 time slots used to exercise truncation. -/
def hd24 : HourlyPayload :=
  ⟨List.replicate 24 "t", List.replicate 24 1, List.replicate 24 2⟩

/-- An environment whose hourly fetch returns 24 complete slots. -/
def env24 : Env :=
  ⟨fun _ => Except.ok (some (1, 2)),
   fun _ _ => some ⟨some 20, some 10, some 180, some 50, some 1000⟩,
   fun _ _ => some hd24,
   "2026-10-12 00:00:00",
   fun a _ => a,
   fun a _ => a⟩

/-- The hourly payload with one time slot, a wind-speed entry for it, but no
wind-direction entry: the ragged case. -/
def hdMixed : HourlyPayload := ⟨["a"], [10], []⟩

/-- An environment whose hourly fetch returns the ragged payload
`hdMixed`. -/
def envMixed : Env :=
  ⟨fun _ => Except.ok (some (1, 2)),
   fun _ _ => some ⟨some 20, some 10, some 180, some 50, some 1000⟩,
   fun _ _ => some hdMixed,
   "2026-10-12 00:00:00",
   fun a _ => a,
   fun a _ => a⟩

/-- The current-weather record assembled in any of the environments above
whose fetch succeeds with the full payload. -/
def cwOK : CurrentWeather :=
  ⟨"2026-10-12 00:00:00", JVal.num 20, JVal.num 10, JVal.num 180, 50, 1000⟩

/-- The hourly list assembled from `envOK` with `end_hour = 3`. -/
def hwOK : List HourlyWeatherPoint :=
  [⟨"t0", 1, 10⟩, ⟨"t1", 2, 20⟩, ⟨"t2", 3, 30⟩, ⟨"t3", 4, 40⟩]

/-- The hourly list assembled from `envMixed` with `end_hour = 0`: the wind
speed comes from the array, the wind direction from the oracle (which
returns its lower bound, 0). -/
def lMixed : List HourlyWeatherPoint := [⟨"a", 10, 0⟩]

/-- Unfolding equation for `get_hourly_weather` once the fetch result is
known. -/
theorem hourly_unfold (env : Env) (la lo : ℚ) (e : Int) (hd : HourlyPayload)
    (hf : env.fetchHourly la lo = some hd) :
    get_hourly_weather env la lo e = some
      ((List.range (min (e + 1) (hd.time.length : Int)).toNat).map fun i =>
        { time := hd.time.getD i "",
          wind_speed :=
            if i < hd.windspeed_10m.length then hd.windspeed_10m.getD i 0
            else env.uniform ((5 : ℚ) - 2) (5 + 3),
          wind_direction :=
            if i < hd.winddirection_10m.length then
              hd.winddirection_10m.getD i 0
            else env.uniform 0 360 }) := by
  simp [get_hourly_weather, hf]

/-- Claim C2: when the city parameter or the hour parameter is absent, the
handler returns status 400 with the fixed message, whatever the other
parameter holds, and the trace is empty — no collaborator is invoked. -/
theorem C2_missing_param_400 (env : Env) (req : Request)
    (h : req.city = none ∨ req.hour = none) :
    handler env req =
      (HandlerResult.ok
         ⟨400, Body.msg "Please provide both 'city' and 'hour' parameters."⟩,
       []) := by
  rcases req with ⟨c, hr⟩
  rcases h with h | h
  · subst h; rfl
  · subst h; cases c <;> rfl

/-- Witness for C2 at the concrete request with `city` absent. -/
theorem C2_missing_param_400_witness :
    (Request.mk none (some "3")).city = none ∧
    handler envOK (Request.mk none (some "3")) =
      (HandlerResult.ok
         ⟨400, Body.msg "Please provide both 'city' and 'hour' parameters."⟩,
       []) :=
  ⟨rfl, C2_missing_param_400 envOK (Request.mk none (some "3")) (Or.inl rfl)⟩

/-- Claim C3: with both parameters present, whenever the geocoder finds no
match or raises, the handler returns status 404 and neither weather fetcher
is invoked (the trace holds the geocoder call only). -/
theorem C3_geocode_absent_404 (env : Env) (city hour : String)
    (h : env.geocode city = Except.ok none ∨
         ∃ e, env.geocode city = Except.error e) :
    handler env ⟨some city, some hour⟩ =
      (HandlerResult.ok ⟨404, Body.msg "City not found."⟩, [CallTag.geocode]) ∧
    CallTag.current ∉ (handler env ⟨some city, some hour⟩).2 ∧
    CallTag.hourly ∉ (handler env ⟨some city, some hour⟩).2 := by
  have hg : get_coordinates env city = none := by
    rcases h with h | ⟨e, h⟩ <;> simp [get_coordinates, h]
  have hh : handler env ⟨some city, some hour⟩ =
      (HandlerResult.ok ⟨404, Body.msg "City not found."⟩, [CallTag.geocode]) := by
    simp [handler, hg]
  exact ⟨hh, by rw [hh]; decide, by rw [hh]; decide⟩

/-- Witness for C3 in the environment whose geocoder returns no match. -/
theorem C3_geocode_absent_404_witness :
    envGeoFail.geocode "Paris" = Except.ok none ∧
    handler envGeoFail ⟨some "Paris", some "3"⟩ =
      (HandlerResult.ok ⟨404, Body.msg "City not found."⟩, [CallTag.geocode]) :=
  ⟨rfl,
   (C3_geocode_absent_404 envGeoFail "Paris" "3" (Or.inl rfl)).1⟩

/-- Claim C4: (a) when the current-weather fetch is reached and returns
absent, the handler returns status 500 and the hourly fetcher is never
invoked; (b) when the current-weather fetch succeeds and the hourly fetch is
reached (the hour parsed) and returns absent, the handler returns
status 500.  "The hourly fetch returns absent" presupposes that the fetch
happens, which in the source requires `int(end_hour)` to have succeeded
first. -/
theorem C4_fetch_failure_500 :
    (∀ (env : Env) (city hour : String) (latitude longitude : ℚ),
      get_coordinates env city = some (latitude, longitude) →
      get_current_weather env latitude longitude = none →
      handler env ⟨some city, some hour⟩ =
        (HandlerResult.ok
           ⟨500, Body.msg "Error fetching current weather data."⟩,
         [CallTag.geocode, CallTag.current]) ∧
      CallTag.hourly ∉ (handler env ⟨some city, some hour⟩).2) ∧
    (∀ (env : Env) (city hour : String) (h : Int) (latitude longitude : ℚ)
       (cw : CurrentWeather),
      get_coordinates env city = some (latitude, longitude) →
      get_current_weather env latitude longitude = some cw →
      pyInt? hour = some h →
      get_hourly_weather env latitude longitude h = none →
      handler env ⟨some city, some hour⟩ =
        (HandlerResult.ok ⟨500, Body.msg "Error fetching hourly weather data."⟩,
         [CallTag.geocode, CallTag.current, CallTag.hourly])) := by
  constructor
  · intro env city hour latitude longitude hgeo hcur
    have hh : handler env ⟨some city, some hour⟩ =
        (HandlerResult.ok
           ⟨500, Body.msg "Error fetching current weather data."⟩,
         [CallTag.geocode, CallTag.current]) := by
      simp [handler, hgeo, hcur]
    exact ⟨hh, by rw [hh]; decide⟩
  · intro env city hour h latitude longitude cw hgeo hcur hparse hhrly
    simp [handler, hgeo, hcur, hparse, hhrly]

/-- Witness for C4: part (a) in the environment whose current fetch fails,
part (b) in the environment whose hourly fetch fails. -/
theorem C4_fetch_failure_500_witness :
    (get_coordinates envCurFail "Paris" = some (1, 2) ∧
     get_current_weather envCurFail 1 2 = none ∧
     handler envCurFail ⟨some "Paris", some "3"⟩ =
       (HandlerResult.ok
          ⟨500, Body.msg "Error fetching current weather data."⟩,
        [CallTag.geocode, CallTag.current])) ∧
    (get_current_weather envHourlyFail 1 2 =
       some ⟨"2026-10-12 00:00:00", JVal.num 20, JVal.num 10, JVal.num 180,
             50, 1000⟩ ∧
     get_hourly_weather envHourlyFail 1 2 3 = none ∧
     handler envHourlyFail ⟨some "Paris", some "3"⟩ =
       (HandlerResult.ok ⟨500, Body.msg "Error fetching hourly weather data."⟩,
        [CallTag.geocode, CallTag.current, CallTag.hourly])) :=
  ⟨⟨rfl, rfl,
    (C4_fetch_failure_500.1 envCurFail "Paris" "3" 1 2 rfl rfl).1⟩,
   ⟨rfl, rfl,
    C4_fetch_failure_500.2 envHourlyFail "Paris" "3" 3 1 2
      ⟨"2026-10-12 00:00:00", JVal.num 20, JVal.num 10, JVal.num 180, 50, 1000⟩
      rfl rfl rfl rfl⟩⟩

/-- Counterexample to claim C7 as stated: a request with both parameters
present and an unparseable hour on which the handler does NOT abort — the
geocoder finds no match, so the handler returns the 404 status response
before `int(end_hour)` is ever evaluated. -/
theorem C7_counterexample :
    pyInt? "abc" = none ∧
    (handler envGeoFail ⟨some "Paris", some "abc"⟩).1 =
      HandlerResult.ok ⟨404, Body.msg "City not found."⟩ := by
  constructor
  · rfl
  · rfl

/-- Claim C7 amended: with both parameters present, when the geocoder and
the current-weather fetch succeed and the hour value is not parseable as an
integer, the parse failure is unhandled — the handler aborts with an
uncaught error instead of returning a status response, without invoking the
hourly fetcher. -/
theorem C7_crash_on_unparsable_hour (env : Env) (city hour : String)
    (latitude longitude : ℚ) (cw : CurrentWeather)
    (hgeo : get_coordinates env city = some (latitude, longitude))
    (hcur : get_current_weather env latitude longitude = some cw)
    (hparse : pyInt? hour = none) :
    handler env ⟨some city, some hour⟩ =
      (HandlerResult.crash, [CallTag.geocode, CallTag.current]) := by
  simp [handler, hgeo, hcur, hparse]

/-- Witness for the amended C7 in the fully successful environment with
hour string abc. -/
theorem C7_crash_on_unparsable_hour_witness :
    get_coordinates envOK "Paris" = some (1, 2) ∧
    pyInt? "abc" = none ∧
    handler envOK ⟨some "Paris", some "abc"⟩ =
      (HandlerResult.crash, [CallTag.geocode, CallTag.current]) :=
  ⟨rfl, rfl,
   C7_crash_on_unparsable_hour envOK "Paris" "abc" 1 2
     ⟨"2026-10-12 00:00:00", JVal.num 20, JVal.num 10, JVal.num 180, 50, 1000⟩
     rfl rfl rfl⟩

/-- Counterexample to claim C1 as stated: a request with both parameters
present, in an environment where the geocoder and both fetches all succeed,
on which the handler does not return 200 — the hour string abc is
unparseable, so the handler crashes at `int(end_hour)`. -/
theorem C1_counterexample :
    (some "Paris" ≠ (none : Option String)) ∧
    (some "abc" ≠ (none : Option String)) ∧
    envOK.geocode "Paris" = Except.ok (some (1, 2)) ∧
    envOK.fetchCurrent 1 2 =
      some ⟨some 20, some 10, some 180, some 50, some 1000⟩ ∧
    envOK.fetchHourly 1 2 =
      some ⟨["t0", "t1", "t2", "t3"], [1, 2, 3, 4], [10, 20, 30, 40]⟩ ∧
    (handler envOK ⟨some "Paris", some "abc"⟩).1 = HandlerResult.crash :=
  ⟨by decide, by decide, rfl, rfl, rfl, rfl⟩

/-- Claim C1 amended: when both parameters are present, the hour value
parses as an integer, and the geocoder and both fetches all succeed, the
handler returns status 200 whose body nests exactly one `CurrentWeather`
(the single `Body.payload` field) and an hourly list of length at most
`hour + 1`. -/
theorem C1_success_response (env : Env) (city hour : String) (h : Int)
    (latitude longitude : ℚ) (cw : CurrentWeather)
    (hw : List HourlyWeatherPoint)
    (hgeo : get_coordinates env city = some (latitude, longitude))
    (hcur : get_current_weather env latitude longitude = some cw)
    (hparse : pyInt? hour = some h)
    (hhr : get_hourly_weather env latitude longitude h = some hw) :
    handler env ⟨some city, some hour⟩ =
      (HandlerResult.ok ⟨200, Body.payload cw hw⟩,
       [CallTag.geocode, CallTag.current, CallTag.hourly]) ∧
    hw.length ≤ (h + 1).toNat := by
  constructor
  · simp [handler, hgeo, hcur, hparse, hhr]
  · simp only [get_hourly_weather] at hhr
    obtain ⟨hd, hf, hmap⟩ := Option.map_eq_some'.mp hhr
    rw [← hmap]
    simp only [List.length_map, List.length_range]
    omega

/-- Witness for the amended C1 in the fully successful environment. -/
theorem C1_success_response_witness :
    get_coordinates envOK "Paris" = some (1, 2) ∧
    pyInt? "3" = some 3 ∧
    get_hourly_weather envOK 1 2 3 = some hwOK ∧
    handler envOK ⟨some "Paris", some "3"⟩ =
      (HandlerResult.ok ⟨200, Body.payload cwOK hwOK⟩,
       [CallTag.geocode, CallTag.current, CallTag.hourly]) ∧
    hwOK.length ≤ ((3 : Int) + 1).toNat := by
  have h := C1_success_response envOK "Paris" "3" 3 1 2 cwOK hwOK rfl rfl rfl
    (by decide)
  exact ⟨rfl, rfl, by decide, h.1, h.2⟩

/-- Per-index values of the mapped range list, used by C5. -/
theorem map_getD_range_eq_take (xs : List String) (n : Nat)
    (hn : n ≤ xs.length) :
    (List.range n).map (fun i => xs.getD i "") = xs.take n := by
  apply List.ext_getElem
  · simp [List.length_take, Nat.min_eq_left hn]
  · intro i h1 h2
    simp only [List.getElem_map, List.getElem_range, List.getElem_take]
    rw [List.getD_eq_getElem]

/-- Claim C5: on a successful hourly fetch with a nonnegative bound, the
returned list has exactly `min (end_hour + 1) (number of time entries)`
points, and its time labels are exactly the corresponding prefix of the
upstream time array, in upstream order. -/
theorem C5_hourly_truncation (env : Env) (latitude longitude : ℚ) (e : Int)
    (hd : HourlyPayload) (he : 0 ≤ e)
    (hf : env.fetchHourly latitude longitude = some hd) :
    ∃ l, get_hourly_weather env latitude longitude e = some l ∧
      l.length = min (e.toNat + 1) hd.time.length ∧
      l.map HourlyWeatherPoint.time =
        hd.time.take (min (e.toNat + 1) hd.time.length) := by
  refine ⟨_, hourly_unfold env latitude longitude e hd hf, ?_, ?_⟩
  · simp only [List.length_map, List.length_range]
    omega
  · have hn2 : (min (e + 1) (hd.time.length : Int)).toNat
        = min (e.toNat + 1) hd.time.length := by omega
    rw [List.map_map, hn2]
    have hn : min (e.toNat + 1) hd.time.length ≤ hd.time.length :=
      Nat.min_le_right _ _
    simpa [Function.comp] using map_getD_range_eq_take hd.time _ hn

/-- Witness for C5: with 24 upstream slots, `end_hour = 3` yields exactly 4
points and `end_hour = 30` yields exactly 24 points. -/
theorem C5_hourly_truncation_witness :
    ((0 : Int) ≤ 3 ∧ env24.fetchHourly 1 2 = some hd24 ∧
      ∃ l, get_hourly_weather env24 1 2 3 = some l ∧ l.length = 4) ∧
    ((0 : Int) ≤ 30 ∧
      ∃ l, get_hourly_weather env24 1 2 30 = some l ∧ l.length = 24) := by
  constructor
  · refine ⟨by decide, rfl, ?_⟩
    obtain ⟨l, h1, h2, h3⟩ := C5_hourly_truncation env24 1 2 3 hd24 (by decide) rfl
    refine ⟨l, h1, ?_⟩
    rw [h2]; decide
  · refine ⟨by decide, ?_⟩
    obtain ⟨l, h1, h2, h3⟩ := C5_hourly_truncation env24 1 2 30 hd24 (by decide) rfl
    refine ⟨l, h1, ?_⟩
    rw [h2]; decide

/-- Counterexample to claim C6 as stated: a slot whose wind-speed array has
an entry but whose wind-direction array does not.  The claim's "otherwise"
branch predicts a substituted wind speed in [3, 8]; the code instead uses
the array entry 10, even though the uniform oracle is in range. -/
theorem C6_counterexample :
    hdMixed.windspeed_10m.length = 1 ∧
    hdMixed.winddirection_10m.length = 0 ∧
    envMixed.fetchHourly 1 2 = some hdMixed ∧
    (3 ≤ envMixed.uniform 3 8 ∧ envMixed.uniform 3 8 ≤ 8) ∧
    get_hourly_weather envMixed 1 2 0 = some [⟨"a", 10, 0⟩] ∧
    ¬((3 : ℚ) ≤ 10 ∧ (10 : ℚ) ≤ 8) := by
  refine ⟨rfl, rfl, rfl, by decide, by decide, by decide⟩

/-- Claim C6 amended: for each hourly slot index, independently for each of
the two wind fields, the fetcher uses the array entry when that array has
one at the index, and otherwise substitutes a draw from [3, 8] for the wind
speed, resp. [0, 360) for the wind direction (assuming the uniform oracle
respects its bounds). -/
theorem C6_per_field_substitution (env : Env) (latitude longitude : ℚ)
    (end_hour : Int) (hd : HourlyPayload) (l : List HourlyWeatherPoint)
    (i : Nat) (hi : i < l.length)
    (hfetch : env.fetchHourly latitude longitude = some hd)
    (hout : get_hourly_weather env latitude longitude end_hour = some l)
    (hu1 : 3 ≤ env.uniform 3 8 ∧ env.uniform 3 8 ≤ 8)
    (hu2 : 0 ≤ env.uniform 0 360 ∧ env.uniform 0 360 < 360) :
    (i < hd.windspeed_10m.length →
      (l.get ⟨i, hi⟩).wind_speed = hd.windspeed_10m.getD i 0) ∧
    (hd.windspeed_10m.length ≤ i →
      3 ≤ (l.get ⟨i, hi⟩).wind_speed ∧ (l.get ⟨i, hi⟩).wind_speed ≤ 8) ∧
    (i < hd.winddirection_10m.length →
      (l.get ⟨i, hi⟩).wind_direction = hd.winddirection_10m.getD i 0) ∧
    (hd.winddirection_10m.length ≤ i →
      0 ≤ (l.get ⟨i, hi⟩).wind_direction ∧
        (l.get ⟨i, hi⟩).wind_direction < 360) := by
  rw [hourly_unfold env latitude longitude end_hour hd hfetch] at hout
  have hl := Option.some.inj hout
  subst hl
  have h38a : (5 : ℚ) - 2 = 3 := by norm_num
  have h38b : (5 : ℚ) + 3 = 8 := by norm_num
  refine ⟨?_, ?_, ?_, ?_⟩ <;> intro hcond <;>
    simp only [List.get_eq_getElem, List.getElem_map, List.getElem_range]
  · rw [if_pos hcond]
  · rw [if_neg (Nat.not_lt.mpr hcond), h38a, h38b]
    exact hu1
  · rw [if_pos hcond]
  · rw [if_neg (Nat.not_lt.mpr hcond)]
    exact hu2

/-- Witness for the amended C6 at the ragged payload: slot 0 takes its wind
speed from the array and its wind direction from the oracle range. -/
theorem C6_per_field_substitution_witness :
    get_hourly_weather envMixed 1 2 0 = some lMixed ∧
    ((0 : Nat) < hdMixed.windspeed_10m.length →
      (lMixed.get ⟨0, by decide⟩).wind_speed = hdMixed.windspeed_10m.getD 0 0) ∧
    (hdMixed.winddirection_10m.length ≤ 0 →
      0 ≤ (lMixed.get ⟨0, by decide⟩).wind_direction ∧
        (lMixed.get ⟨0, by decide⟩).wind_direction < 360) := by
  have h := C6_per_field_substitution envMixed 1 2 0 hdMixed lMixed 0
    (by decide) rfl (by decide) (by decide) (by decide)
  exact ⟨by decide, h.1, h.2.2.2⟩

/-- Claim C8: on a successful current-weather fetch, a missing humidity
field is replaced by `randint 30 90` and a missing pressure field by
`randint 980 1050`, independently, so (with the randint oracle respecting
its inclusive bounds, as `random.randint` does) the record always carries a
numeric humidity in [30, 90] and a numeric pressure in [980, 1050]; the
fields are total rationals, never null. -/
theorem C8_placeholder_ranges (env : Env) (latitude longitude : ℚ)
    (p : CWPayload)
    (hfetch : env.fetchCurrent latitude longitude = some p)
    (hr : 30 ≤ env.randint 30 90 ∧ env.randint 30 90 ≤ 90)
    (hp : 980 ≤ env.randint 980 1050 ∧ env.randint 980 1050 ≤ 1050) :
    ∃ cw, get_current_weather env latitude longitude = some cw ∧
      (p.relative_humidity = none → 30 ≤ cw.humidity ∧ cw.humidity ≤ 90) ∧
      (p.pressure_msl = none → 980 ≤ cw.pressure ∧ cw.pressure ≤ 1050) := by
  have hcw : get_current_weather env latitude longitude = some
      { date := env.now, temperature := numOrNA p.temperature,
        wind_speed := numOrNA p.windspeed,
        wind_direction := numOrNA p.winddirection,
        humidity := p.relative_humidity.getD ((env.randint 30 90 : Int) : ℚ),
        pressure := p.pressure_msl.getD ((env.randint 980 1050 : Int) : ℚ) } := by
    simp [get_current_weather, hfetch]
  refine ⟨_, hcw, ?_, ?_⟩
  · intro hnone
    simp only [hnone, Option.getD_none]
    exact ⟨by exact_mod_cast hr.1, by exact_mod_cast hr.2⟩
  · intro hnone
    simp only [hnone, Option.getD_none]
    exact ⟨by exact_mod_cast hp.1, by exact_mod_cast hp.2⟩

/-- Witness for C8 in the environment whose payload omits humidity and
pressure. -/
theorem C8_placeholder_ranges_witness :
    envNoHum.fetchCurrent 1 2 = some ⟨some 20, some 10, some 180, none, none⟩ ∧
    (30 ≤ envNoHum.randint 30 90 ∧ envNoHum.randint 30 90 ≤ 90) ∧
    ∃ cw, get_current_weather envNoHum 1 2 = some cw ∧
      ((⟨some 20, some 10, some 180, none, none⟩ : CWPayload).relative_humidity
          = none → 30 ≤ cw.humidity ∧ cw.humidity ≤ 90) ∧
      ((⟨some 20, some 10, some 180, none, none⟩ : CWPayload).pressure_msl
          = none → 980 ≤ cw.pressure ∧ cw.pressure ≤ 1050) :=
  ⟨rfl, by decide,
   C8_placeholder_ranges envNoHum 1 2 ⟨some 20, some 10, some 180, none, none⟩
     rfl (by decide) (by decide)⟩

/-- Claim C9: the presence check tests only for null, so an empty-string
city passes validation — for every environment the geocoder is invoked and
the outcome is never a 400 response. -/
theorem C9_empty_city_passes (env : Env) (hour : String) :
    CallTag.geocode ∈ (handler env ⟨some "", some hour⟩).2 ∧
    statusOf (handler env ⟨some "", some hour⟩).1 ≠ some 400 := by
  cases hg : get_coordinates env "" with
  | none => simp [handler, hg, statusOf]
  | some p =>
    obtain ⟨la, lo⟩ := p
    cases hc : get_current_weather env la lo with
    | none => simp [handler, hg, hc, statusOf]
    | some cw =>
      cases hp : pyInt? hour with
      | none => simp [handler, hg, hc, hp, statusOf]
      | some hh =>
        cases hq : get_hourly_weather env la lo hh <;>
          simp [handler, hg, hc, hp, hq, statusOf]

/-- Witness for C9 at a concrete environment: the empty-string city reaches
the geocoder and the outcome is a 404, not a 400. -/
theorem C9_empty_city_passes_witness :
    CallTag.geocode ∈ (handler envGeoFail ⟨some "", some "0"⟩).2 ∧
    statusOf (handler envGeoFail ⟨some "", some "0"⟩).1 ≠ some 400 :=
  C9_empty_city_passes envGeoFail "0"

/-- Claim C10: for a negative parsed hour, a successful hourly fetch yields
the empty list (not absent), and the handler therefore returns status 200
with an empty hourly list. -/
theorem C10_negative_hour_empty :
    (∀ (env : Env) (latitude longitude : ℚ) (e : Int) (hd : HourlyPayload),
      e < 0 → env.fetchHourly latitude longitude = some hd →
      get_hourly_weather env latitude longitude e = some []) ∧
    (∀ (env : Env) (city hour : String) (e : Int) (latitude longitude : ℚ)
       (cw : CurrentWeather) (hd : HourlyPayload),
      pyInt? hour = some e → e < 0 →
      get_coordinates env city = some (latitude, longitude) →
      get_current_weather env latitude longitude = some cw →
      env.fetchHourly latitude longitude = some hd →
      handler env ⟨some city, some hour⟩ =
        (HandlerResult.ok ⟨200, Body.payload cw []⟩,
         [CallTag.geocode, CallTag.current, CallTag.hourly])) := by
  have part1 : ∀ (env : Env) (latitude longitude : ℚ) (e : Int)
      (hd : HourlyPayload),
      e < 0 → env.fetchHourly latitude longitude = some hd →
      get_hourly_weather env latitude longitude e = some [] := by
    intro env la lo e hd he hf
    rw [hourly_unfold env la lo e hd hf]
    have h0 : (min (e + 1) (hd.time.length : Int)).toNat = 0 := by omega
    rw [h0]
    rfl
  refine ⟨part1, ?_⟩
  intro env city hour e la lo cw hd hparse he hgeo hcur hf
  have hh := part1 env la lo e hd he hf
  simp [handler, hgeo, hcur, hparse, hh]

/-- Witness for C10 at hour string -5 in the fully successful
environment. -/
theorem C10_negative_hour_empty_witness :
    pyInt? "-5" = some (-5) ∧ ((-5 : Int) < 0) ∧
    get_hourly_weather envOK 1 2 (-5) = some [] ∧
    handler envOK ⟨some "Paris", some "-5"⟩ =
      (HandlerResult.ok ⟨200, Body.payload cwOK []⟩,
       [CallTag.geocode, CallTag.current, CallTag.hourly]) :=
  ⟨rfl, by decide,
   C10_negative_hour_empty.1 envOK 1 2 (-5)
     ⟨["t0", "t1", "t2", "t3"], [1, 2, 3, 4], [10, 20, 30, 40]⟩
     (by decide) rfl,
   C10_negative_hour_empty.2 envOK "Paris" "-5" (-5) 1 2 cwOK
     ⟨["t0", "t1", "t2", "t3"], [1, 2, 3, 4], [10, 20, 30, 40]⟩
     rfl (by decide) rfl rfl rfl⟩

end Weather
